import Mathlib

/-!
# Verification of the slide navigation / transition engine (src/app.js)

Shallow embedding of `SlideEngine` and `LineAnimator` from `src/app.js`.
The embedding models:

* the engine's navigation state (`currentSlide`, `isTransitioning`),
* each slide's `slide-hidden` class as a `Bool` flag (`true` = hidden),
* the `slidechange` notifications dispatched by `afterSlideChange`,
* the single-threaded timer queue (`setTimeout` / `clearTimeout`), with the
  animator's per-sequence timer-handle lists
  (`timelineTimeouts`, `slide10To11Timeouts`, `slide12SplitTimeouts`,
  `slide12ReverseTimeouts`, `slide12ExpansionTimeout`),
* the promise returned by `SlideEngine.transition` (a resolved-once cell whose
  `.then` continuation runs at the first `resolve()`), and
* the `LineAnimator.isAnimating` flag, its `currentSlide` mirror, and the
  timeline milestone circle visibility.

Purely visual data that no verified claim mentions is not tracked: SVG path
`d` strings (they are recomputed from live DOM measurements), inline style
strings, overlay panel geometry, and ARIA attributes (which mirror the hidden
flag one-for-one in the source).  `triggerSlideAnimations` only schedules
content-reveal timers and count-up frames for elements inside a slide; it
touches no engine or animator state, so it is a no-op on this state (the
count-up arithmetic is modelled separately as pure functions).  The last
`updatePath(slideIndex, animate)` request is recorded in `lastPathUpdate` so
that theorems can observe that a path update happened and with which
animation flag.

The repository presentation has 12 slides and is configured with
`type: 'fade'`, `duration: 400`, `loop: false` (the `DOMContentLoaded`
handler at the bottom of `src/app.js`); the model keeps the duration and the
loop flag as state fields so theorems can quantify over them.
-/

namespace UsTraffic

/-- Which `.then` continuation a `transition` promise carries: the plain
`goToSlide` completion, the slide 12→11 branch (which also resets overlays),
or the slide 11→12 branch (which also assigns `currentSlide`). -/
inductive ContKind
  | plain
  | rev1110
  | split1011
deriving DecidableEq, Repr

/-- One `transition` promise: resolved-once flag, continuation kind, and the
target index captured by the closure. -/
structure Prom where
  resolved : Bool
  kind : ContKind
  idx : Nat
deriving DecidableEq, Repr

/-- The distinct `setTimeout` callbacks of `src/app.js`, with the data each
closure captures.  `genMain`/`genSafety` are the two timers of
`SlideEngine.transition` (the `duration` timer and the `duration+500` safety
timer).  The `swoop*`/`revSwoop*` actions are the untracked timers of
`animateSwoopTransition` / `animateReverseSwoopTransition`; the remaining
groups correspond to the animator's tracked timer lists. -/
inductive TAct
  | genMain (pid fromIdx safetyId : Nat)
  | genSafety (pid : Nat)
  | swoopComplete (fromIdx toIdx idx : Nat)
  | swoopEnd
  | revSwoopComplete (fromIdx toIdx idx : Nat)
  | revSwoopEnd
  | s1011Complete (fromIdx toIdx idx : Nat)
  | s1011Expand
  | s1011End
  | splitStart
  | splitExpand
  | splitMove
  | splitContent
  | splitEnd
  | revSplitComplete (fromIdx toIdx idx : Nat)
  | revSplitExpand
  | revSplitTransfer
  | revSplitEnd
  | expansionExpand
  | timelineDraw
  | timelineCircle (ci : Nat)
  | timelineFinal
deriving DecidableEq, Repr

/-- A pending `setTimeout`: handle, absolute fire time (ms), callback. -/
structure Timer where
  id : Nat
  time : Nat
  act : TAct
deriving DecidableEq, Repr

/-- Combined state of `SlideEngine`, `LineAnimator` and the event loop. -/
structure St where
  /-- `SlideEngine.currentSlide`. -/
  currentSlide : Nat
  /-- `SlideEngine.isTransitioning`. -/
  isTransitioning : Bool
  /-- per-slide `slide-hidden` class (`true` = class present = hidden). -/
  hidden : List Bool
  /-- indices carried by dispatched `slidechange` events, oldest first. -/
  events : List Nat
  /-- `config.transitions.duration`. -/
  dur : Nat
  /-- `config.navigation.loop`. -/
  loopNav : Bool
  /-- `LineAnimator.currentSlide`. -/
  laCurrent : Nat
  /-- `LineAnimator.isAnimating`. -/
  isAnimating : Bool
  /-- visibility of the 7 timeline milestone circles/boxes on slide 10. -/
  circles : List Bool
  /-- `LineAnimator.timelineTimeouts` (timer handles). -/
  timelineT : List Nat
  /-- `LineAnimator.slide10To11Timeouts`. -/
  s1011T : List Nat
  /-- `LineAnimator.slide12SplitTimeouts`. -/
  splitT : List Nat
  /-- `LineAnimator.slide12ReverseTimeouts`. -/
  revT : List Nat
  /-- `LineAnimator.slide12ExpansionTimeout`. -/
  expT : Option Nat
  /-- whether `onContentReadyCallback` is stored (non-null). -/
  onContent : Bool
  /-- last `updatePath(slideIndex, animate)` request, if any. -/
  lastPathUpdate : Option (Nat × Bool)
  /-- current time in ms. -/
  now : Nat
  /-- pending timers, in scheduling order. -/
  pending : List Timer
  /-- next fresh timer handle. -/
  nextId : Nat
  /-- promises created by `SlideEngine.transition`, in creation order. -/
  proms : List Prom
deriving DecidableEq, Repr

/-- Schedule a `setTimeout(act, delay)`; returns the new state and handle. -/
def schedule (s : St) (delay : Nat) (act : TAct) : St × Nat :=
  ({ s with
      pending := s.pending ++ [⟨s.nextId, s.now + delay, act⟩],
      nextId := s.nextId + 1 }, s.nextId)

/-- `clearTimeout` on every handle in `ids`. -/
def removeTimers (s : St) (ids : List Nat) : St :=
  { s with pending := s.pending.filter (fun t => t.id ∉ ids) }

/-! ## LineAnimator: cancel operations and visual toggles -/

/-- `LineAnimator.showAllTimelineCircles`. -/
def showAllTimelineCircles (s : St) : St :=
  { s with circles := List.replicate 7 true }

/-- `LineAnimator.hideTimelineCircles`. -/
def hideTimelineCircles (s : St) : St :=
  { s with circles := List.replicate 7 false }

/-- `LineAnimator.cancelTimelineAnimation`: clear the tracked timeline
timeouts and drop the temporary segment SVG (visual). -/
def cancelTimelineAnimation (s : St) : St :=
  { removeTimers s s.timelineT with timelineT := [] }

/-- `LineAnimator.cancelSlide10To11Swoop`. -/
def cancelSlide10To11Swoop (s : St) : St :=
  { removeTimers s s.s1011T with s1011T := [], isAnimating := false }

/-- `LineAnimator.cancelSlide12Expansion`. -/
def cancelSlide12Expansion (s : St) : St :=
  match s.expT with
  | none => s
  | some i => { removeTimers s [i] with expT := none }

/-- `LineAnimator.cancelSlide12Split`: clears both the split and the reverse
timer lists, resets overlay/secondary-path visuals (untracked here), and
resets `isAnimating`. -/
def cancelSlide12Split (s : St) : St :=
  { removeTimers s (s.splitT ++ s.revT) with
      splitT := [], revT := [], isAnimating := false }

/-! ## SlideEngine: slide-change bookkeeping and the generic transition -/

/-- `SlideEngine.triggerSlideAnimations`: schedules content-reveal timers and
count-up frames inside one slide; none of that state is tracked here. -/
def triggerSlideAnimationsM (s : St) : St := s

/-- `SlideEngine.afterSlideChange`: assigns `currentSlide`, refreshes derived
UI, and dispatches the `slidechange` event with the new index. -/
def afterSlideChangeM (s : St) (idx : Nat) : St :=
  { s with currentSlide := idx, events := s.events ++ [idx] }

/-- Run a resolved `transition` promise's `.then` continuation. -/
def runCont (s : St) (k : ContKind) (idx : Nat) : St :=
  match k with
  | .plain => afterSlideChangeM { s with isTransitioning := false } idx
  | .rev1110 =>
      -- also resets the overlay panels to their hidden state (visual)
      afterSlideChangeM { s with isTransitioning := false } idx
  | .split1011 =>
      afterSlideChangeM
        { s with isTransitioning := false, currentSlide := idx } idx

/-- `resolve()` on the promise `pid`: the continuation runs exactly once, at
the first resolution; later calls are no-ops. -/
def resolveProm (s : St) (pid : Nat) : St :=
  match s.proms.get? pid with
  | none => s
  | some p =>
      if p.resolved then s
      else
        runCont { s with proms := s.proms.set pid { p with resolved := true } }
          p.kind p.idx

/-- `SlideEngine.transition(fromSlide, toSlide, direction)`: un-hides the
destination, schedules the safety timer at `duration + 500`, applies the CSS
effect (visual), and schedules the main completion timer at `duration`.
`k`/`idx` describe the `.then` continuation attached by the caller. -/
def transitionM (s : St) (fromIdx toIdx : Nat) (k : ContKind) (idx : Nat) :
    St :=
  let s := { s with hidden := s.hidden.set toIdx false }
  let pid := s.proms.length
  let s := { s with proms := s.proms ++ [⟨false, k, idx⟩] }
  let (s, sid) := schedule s (s.dur + 500) (.genSafety pid)
  let (s, _) := schedule s s.dur (.genMain pid fromIdx sid)
  s

/-! ## LineAnimator: special sequences -/

/-- `LineAnimator.animateSlide12Expansion`: cancels the previous expansion
timer, sets the path to the small centered slide-12 line (visual), and
schedules the outward expansion at 1200 ms. -/
def animateSlide12Expansion (s : St) : St :=
  let s := cancelSlide12Expansion s
  let (s, i) := schedule s 1200 .expansionExpand
  { s with expT := some i }

/-- The segment list of `animateTimelineStepByStep`: ten drawn segments, the
first seven each followed by a milestone circle reveal (display order
2,1,0,3,4,5,6). -/
def timelineSegments : List (Option Nat) :=
  [some 2, some 1, some 0, some 3, some 4, some 5, some 6, none, none, none]

/-- Schedule one timeline segment: the draw timer at the running delay
(+800 ms per segment), then, when the segment ends in a circle, the circle
reveal timer (+300 ms pause). -/
def scheduleTimelineSegment (acc : St × Nat) (seg : Option Nat) : St × Nat :=
  let (s, delay) := acc
  let (s, did) := schedule s delay .timelineDraw
  let s := { s with timelineT := s.timelineT ++ [did] }
  let delay := delay + 800
  match seg with
  | none => (s, delay)
  | some ci =>
      let (s, cid) := schedule s delay (.timelineCircle ci)
      ({ s with timelineT := s.timelineT ++ [cid] }, delay + 300)

/-- `LineAnimator.animateTimelineStepByStep`: hides all circles, cancels any
previous timeline run, draws each segment on a fresh overlay SVG with an
800 ms draw per segment and a 300 ms pause after each circle (initial delay
50 ms), then consolidates into the main path 100 ms after the last step. -/
def animateTimelineStepByStep (s : St) : St :=
  let s := hideTimelineCircles s
  let s := cancelTimelineAnimation s
  let (s, delay) := timelineSegments.foldl scheduleTimelineSegment (s, 50)
  let (s, fid) := schedule s (delay + 100) .timelineFinal
  { s with timelineT := s.timelineT ++ [fid] }

/-- First phase of `updatePath`: when navigating away from slide 10 (or with
stray timeline timers left behind), cancel the timeline animation and force
all milestone circles visible. -/
def updatePathLeave10 (s : St) (previousSlide slideIndex : Nat) : St :=
  if slideIndex ≠ 9 ∧ (previousSlide = 9 ∨ s.timelineT ≠ []) then
    showAllTimelineCircles (cancelTimelineAnimation s)
  else s

/-- Second phase of `updatePath`: the slide-10 timeline step animation, the
slide-12 expansion, or the plain path assignment (with the circles re-shown
whenever the target is not the timeline slide). -/
def updatePathBody (s : St) (slideIndex : Nat) (animate : Bool) : St :=
  if slideIndex = 9 ∧ animate then
    animateTimelineStepByStep s
  else if slideIndex = 11 ∧ animate then
    showAllTimelineCircles (animateSlide12Expansion s)
  else
    -- set the path (with or without a CSS geometry transition): visual
    if slideIndex ≠ 9 then showAllTimelineCircles s else s

/-- Third phase of `updatePath`: on every non-slide-12 target, hide the
secondary path, reset the overlays (visual), and cancel the split timers. -/
def updatePathReset (s : St) (slideIndex : Nat) : St :=
  if slideIndex ≠ 11 then cancelSlide12Split s else s

/-- `LineAnimator.updatePath(slideIndex, animate)`. -/
def updatePath (s : St) (slideIndex : Nat) (animate : Bool) : St :=
  let previousSlide := s.laCurrent
  let s := updatePathLeave10 { s with laCurrent := slideIndex }
    previousSlide slideIndex
  let s := updatePathBody s slideIndex animate
  let s := updatePathReset s slideIndex
  { s with lastPathUpdate := some (slideIndex, animate) }

/-- `LineAnimator.animateSwoopTransition` (slide 2→3): guarded by
`isAnimating`; moves the path to the slide-3 header underline (visual),
assigns the animator's `currentSlide`, and schedules the untracked
`onComplete` timer at 20% of the swoop duration and the untracked cleanup
timer at the full 600 ms. -/
def animateSwoopTransition (s : St) (fromIdx toIdx idx : Nat) : St :=
  if s.isAnimating then s
  else
    let s := { s with isAnimating := true, laCurrent := 2 }
    let (s, _) := schedule s 120 (.swoopComplete fromIdx toIdx idx)
    let (s, _) := schedule s 600 .swoopEnd
    s

/-- `LineAnimator.animateReverseSwoopTransition` (slide 3→2): guarded by
`isAnimating`; schedules the untracked `onComplete` timer at 40% of the swoop
duration and the untracked cleanup timer at 600 ms. -/
def animateReverseSwoopTransition (s : St) (fromIdx toIdx idx : Nat) : St :=
  if s.isAnimating then s
  else
    let s := { s with isAnimating := true }
    let (s, _) := schedule s 240 (.revSwoopComplete fromIdx toIdx idx)
    let (s, _) := schedule s 600 .revSwoopEnd
    s

/-- `LineAnimator.animateSlide10To11Swoop`: cancels its own previous
generation, then schedules the guarded `onComplete` timer at 120 ms, the
guarded expansion step at 750 ms, and the unguarded cleanup at 1800 ms, all
tracked in `slide10To11Timeouts`. -/
def animateSlide10To11Swoop (s : St) (fromIdx toIdx idx : Nat) : St :=
  let s := cancelSlide10To11Swoop s
  let s := { s with isAnimating := true }
  let (s, t1) := schedule s 120 (.s1011Complete fromIdx toIdx idx)
  let (s, t2) := schedule s 750 .s1011Expand
  let (s, t3) := schedule s 1800 .s1011End
  { s with s1011T := s.s1011T ++ [t1, t2, t3] }

/-- `LineAnimator.animateSlide12To11Reverse`: cancels the expansion timer,
clears (without visual reset) the split and reverse timer lists, then
schedules the four guarded reverse-split timers at 180/700/1550/1600 ms,
tracked in `slide12ReverseTimeouts`. -/
def animateSlide12To11Reverse (s : St) (fromIdx toIdx idx : Nat) : St :=
  let s := cancelSlide12Expansion s
  let s := { removeTimers s (s.splitT ++ s.revT) with splitT := [], revT := [] }
  let s := { s with isAnimating := true }
  let (s, r1) := schedule s 180 (.revSplitComplete fromIdx toIdx idx)
  let (s, r2) := schedule s 700 .revSplitExpand
  let (s, r3) := schedule s 1550 .revSplitTransfer
  let (s, r4) := schedule s 1600 .revSplitEnd
  { s with revT := [r1, r2, r3, r4] }

/-- The `onSlideReady` closure the engine passes to
`animateSlide11To12Split` (src/app.js lines 412-434): if `currentSlide`
already equals the target the transition only clears `isTransitioning`;
otherwise it starts the generic transition whose `.then` assigns
`currentSlide` and completes the slide change. -/
def splitOnSlideReady (s : St) (fromIdx toIdx idx : Nat) : St :=
  if s.currentSlide = idx then { s with isTransitioning := false }
  else transitionM s fromIdx toIdx .split1011 idx

/-- `LineAnimator.animateSlide11To12Split`: cancels the 10→11 swoop, the
split/reverse timers, and the expansion timer; stores the content callback;
fires `onSlideReady` synchronously; then schedules the guarded phase-1 timer
at 50 ms (tracked in `slide12SplitTimeouts`). -/
def animateSlide11To12Split (s : St) (fromIdx toIdx idx : Nat) : St :=
  let s := cancelSlide10To11Swoop s
  let s := cancelSlide12Split s
  let s := cancelSlide12Expansion s
  let s := { s with isAnimating := true, onContent := true }
  let s := splitOnSlideReady s fromIdx toIdx idx
  let (s, t0) := schedule s 50 .splitStart
  { s with splitT := s.splitT ++ [t0] }

/-- `LineAnimator.continueSlide12SplitAnimation`, run inside the phase-1
timer: schedules the expand/move/content/cleanup timers at 750/1400/2050/2400
ms after phase 1 fired, tracked in `slide12SplitTimeouts`. -/
def continueSlide12SplitAnimation (s : St) : St :=
  let (s, t2) := schedule s 750 .splitExpand
  let (s, t3) := schedule s 1400 .splitMove
  let (s, t4) := schedule s 2050 .splitContent
  let (s, t5) := schedule s 2400 .splitEnd
  { s with splitT := s.splitT ++ [t2, t3, t4, t5] }

/-! ## Executing timer callbacks -/

/-- Execute one fired timer callback. -/
def execAct (s : St) : TAct → St
  | .genMain pid fromIdx safetyId =>
      -- clearTimeout(safetyTimeout); hide the source; clear styles; resolve
      let s := removeTimers s [safetyId]
      let s := { s with hidden := s.hidden.set fromIdx true }
      resolveProm s pid
  | .genSafety pid => resolveProm s pid
  | .swoopComplete fromIdx toIdx idx =>
      -- unguarded: the engine's onComplete closure for slide 2→3
      let s := triggerSlideAnimationsM s
      transitionM s fromIdx toIdx .plain idx
  | .swoopEnd => { s with isAnimating := false }
  | .revSwoopComplete fromIdx toIdx idx =>
      let s := triggerSlideAnimationsM s
      transitionM s fromIdx toIdx .plain idx
  | .revSwoopEnd => { s with isAnimating := false, laCurrent := 1 }
  | .s1011Complete fromIdx toIdx idx =>
      if s.isAnimating then
        let s := triggerSlideAnimationsM s
        transitionM s fromIdx toIdx .plain idx
      else s
  | .s1011Expand => s  -- guarded path expansion: visual only
  | .s1011End => { s with isAnimating := false, laCurrent := 10 }
  | .splitStart =>
      if s.isAnimating then continueSlide12SplitAnimation s else s
  | .splitExpand => s  -- guarded: visual only
  | .splitMove => s    -- guarded: visual only
  | .splitContent =>
      if s.isAnimating then
        if s.onContent then { triggerSlideAnimationsM s with onContent := false }
        else s
      else s
  | .splitEnd =>
      if s.isAnimating then
        { s with isAnimating := false, laCurrent := 11 }
      else s
  | .revSplitComplete fromIdx toIdx idx =>
      if s.isAnimating then
        let s := triggerSlideAnimationsM s
        transitionM s fromIdx toIdx .rev1110 idx
      else s
  | .revSplitExpand => s    -- guarded: visual only
  | .revSplitTransfer => s  -- guarded: visual only
  | .revSplitEnd =>
      if s.isAnimating then
        { s with isAnimating := false, laCurrent := 10 }
      else s
  | .expansionExpand => { s with expT := none }  -- expands the path: visual
  | .timelineDraw => s
  | .timelineCircle ci => { s with circles := s.circles.set ci true }
  | .timelineFinal => s

/-! ## SlideEngine.goToSlide -/

/-- The generic-transition branch of `goToSlide` (src/app.js lines 447-463):
mark transitioning, update the progress path with animation, trigger the
destination's content animations, start the fade/slide/zoom transition (the
page config is `'fade'`, which is not `'none'`), and assign `currentSlide`
eagerly. -/
def genericGo (s : St) (prev index : Nat) : St :=
  let s := { s with isTransitioning := true }
  let s := updatePath s index true
  let s := triggerSlideAnimationsM s
  let s := transitionM s prev index .plain index
  { s with currentSlide := index }

/-- Force-hide every slide other than `keep1` and the raw requested index
(`goToSlide`'s stuck-slide reset, src/app.js lines 231-237). -/
def forceHideExcept (hidden : List Bool) (keep1 : Nat) (rawIdx : Int) :
    List Bool :=
  hidden.mapIdx (fun i h =>
    if i ≠ keep1 ∧ (i : Int) ≠ rawIdx then true else h)

/-- `SlideEngine.goToSlide(index, animate)`.  `rawIdx` is the argument before
the bounds check (e.g. `-1` from `prev()` on the first slide). -/
def goToSlideM (s : St) (rawIdx : Int) (animate : Bool) : St :=
  -- if already transitioning to the same slide, ignore
  if s.isTransitioning ∧ rawIdx = (s.currentSlide : Int) then s
  else
    -- if already transitioning, cancel current transition and proceed
    let s :=
      if s.isTransitioning then
        let s := cancelTimelineAnimation s
        let s := cancelSlide10To11Swoop s
        let s := cancelSlide12Split s
        let s := cancelSlide12Expansion s
        { s with
            hidden := forceHideExcept s.hidden s.currentSlide rawIdx,
            isTransitioning := false }
      else s
    -- bounds check
    let len := s.hidden.length
    let index : Nat :=
      if rawIdx < 0 then (if s.loopNav then len - 1 else 0)
      else if rawIdx ≥ (len : Int) then (if s.loopNav then 0 else len - 1)
      else rawIdx.toNat
    if index = s.currentSlide ∧ animate then s
    else
      let prev := s.currentSlide
      -- initial-load branch: ensure slide 0 is visible
      if index = 0 ∧ s.currentSlide = 0 ∧ ¬animate then
        let s := { s with hidden := s.hidden.set 0 false }
        let s := updatePath s 0 false
        afterSlideChangeM s 0
      else
        -- reset animations on the slide we're leaving; leaving slide 12
        -- always resets the wipe overlays
        let s :=
          if prev ≠ index then
            let s := s  -- resetSlideAnimations(prevSlide): content only
            if s.currentSlide = 11 then
              cancelSlide12Expansion (cancelSlide12Split s)
            else s
          else s
        -- slide 2→3 swoop
        if animate ∧ s.currentSlide = 1 ∧ index = 2 then
          let s := { s with isTransitioning := true }
          let s := animateSwoopTransition s prev index index
          { s with currentSlide := index }
        -- slide 3→2 reverse swoop
        else if animate ∧ s.currentSlide = 2 ∧ index = 1 then
          let s := { s with isTransitioning := true }
          let s := animateReverseSwoopTransition s prev index index
          { s with currentSlide := index }
        -- slide 10→11 swoop from the timeline's bottom line
        else if animate ∧ s.currentSlide = 9 ∧ index = 10 then
          let s := { s with isTransitioning := true }
          let s := showAllTimelineCircles (cancelTimelineAnimation s)
          let s := animateSlide10To11Swoop s prev index index
          { s with currentSlide := index }
        -- slide 12→11 reverse split
        else if animate ∧ s.currentSlide = 11 ∧ index = 10 then
          let s := { s with isTransitioning := true }
          let s := { removeTimers s s.splitT with splitT := [] }
          let s := animateSlide12To11Reverse s prev index index
          { s with currentSlide := index }
        -- slide 11→12 split with wipe reveal
        else if animate ∧ s.currentSlide = 10 ∧ index = 11 then
          let s := cancelTimelineAnimation s
          let s := cancelSlide10To11Swoop s
          let s := cancelSlide12Split s
          let s := cancelSlide12Expansion s
          let s :=
            if s.isTransitioning then
              { s with hidden := s.hidden.set prev true,
                       isTransitioning := false }
            else s
          let s := { s with isAnimating := false }
          let s := { s with isTransitioning := true }
          -- currentSlide is intentionally not assigned here
          animateSlide11To12Split s prev index index
        else if animate then
          genericGo s prev index
        else
          let s :=
            if prev ≠ index then { s with hidden := s.hidden.set prev true }
            else s
          let s := { s with hidden := s.hidden.set index false }
          let s := updatePath s index false
          let s := afterSlideChangeM s index
          { s with currentSlide := index }

/-! ## The event loop -/

/-- The earliest pending timer (scheduling order breaks ties, as in the
browser's timer queue). -/
def pickMin : List Timer → Option Timer
  | [] => none
  | t :: ts =>
      match pickMin ts with
      | none => some t
      | some u => if u.time < t.time then some u else some t

/-- Fire one timer: drop it from the queue, advance the clock, run it. -/
def fireTimer (s : St) (t : Timer) : St :=
  let s := { s with
      pending := s.pending.filter (fun u => u.id ≠ t.id),
      now := max s.now t.time }
  execAct s t.act

/-- Run pending timers in time order until the queue is empty (fuel-bounded;
every trace in this file terminates far below the fuel used). -/
def settleFuel : Nat → St → St
  | 0, s => s
  | n + 1, s =>
      match pickMin s.pending with
      | none => s
      | some t => settleFuel n (fireTimer s t)

/-- Run pending timers in time order while they are due strictly before
`cutoff`. -/
def runTimersBefore : Nat → Nat → St → St
  | 0, _, s => s
  | n + 1, cutoff, s =>
      match pickMin s.pending with
      | none => s
      | some t =>
          if t.time < cutoff then runTimersBefore n cutoff (fireTimer s t)
          else s

/-- External navigation inputs (keyboard/touch/click bindings all funnel into
these engine methods). -/
inductive NavIn
  | goTo (i : Int) (animate : Bool)
  | next
  | prev
  | first
  | last
deriving DecidableEq, Repr

/-- Apply one navigation input (`next`/`prev`/`first`/`last` delegate to
`goToSlide` exactly as in the source). -/
def applyNav (s : St) : NavIn → St
  | .goTo i a => goToSlideM s i a
  | .next => goToSlideM s ((s.currentSlide : Int) + 1) true
  | .prev => goToSlideM s ((s.currentSlide : Int) - 1) true
  | .first => goToSlideM s 0 true
  | .last => goToSlideM s ((s.hidden.length : Int) - 1) true

/-- Run a time-stamped navigation schedule: before each input, fire every
timer due strictly before it; after the last input, run the queue dry. -/
def runSchedule (fuel : Nat) : List (Nat × NavIn) → St → St
  | [], s => settleFuel fuel s
  | (t, nv) :: rest, s =>
      let s := runTimersBefore fuel t s
      runSchedule fuel rest (applyNav { s with now := t } nv)

/-- Run a schedule only up to (and including) time `cutoff`, leaving later
timers pending so the mid-flight state can be observed. -/
def runToTime (fuel : Nat) (cutoff : Nat) : List (Nat × NavIn) → St → St
  | [], s => runTimersBefore fuel (cutoff + 1) s
  | (t, nv) :: rest, s =>
      if t ≤ cutoff then
        let s := runTimersBefore fuel t s
        runToTime fuel cutoff rest (applyNav { s with now := t } nv)
      else runTimersBefore fuel (cutoff + 1) s

/-! ## Initial state -/

/-- State after the `SlideEngine` constructor and the `init()` set-up loop:
12 slides, every slide but the first marked hidden, nothing scheduled.  The
duration and loop flag come from the page's config (400 ms fade, no loop)
but are parameters here so theorems can quantify over them. -/
def rawInit (dur : Nat) (loopNav : Bool) : St where
  currentSlide := 0
  isTransitioning := false
  hidden := false :: List.replicate 11 true
  events := []
  dur := dur
  loopNav := loopNav
  laCurrent := 0
  isAnimating := false
  circles := List.replicate 7 false
  timelineT := []
  s1011T := []
  splitT := []
  revT := []
  expT := none
  onContent := false
  lastPathUpdate := none
  now := 0
  pending := []
  nextId := 0
  proms := []

/-- State after page load: `init()` ends with `goToSlide(0, false)` and the
`LineAnimator` is wired up (its own `updatePath(0, false)` from `init()` has
the same effect as the one inside `goToSlide(0, false)`). -/
def initStateD (dur : Nat) (loopNav : Bool) : St :=
  goToSlideM (rawInit dur loopNav) 0 false

/-- Initial state with the page's actual configuration. -/
def initState : St := initStateD 400 false

/-- Canonical settled state: engine idle on slide `i`, nothing pending. -/
def idleAt (D i : Nat) : St :=
  { rawInit D false with
      currentSlide := i,
      hidden := (List.replicate 12 true).set i false,
      laCurrent := i,
      circles := List.replicate 7 true,
      lastPathUpdate := some (i, false) }

/-- Eleven sequential `next()` calls, each issued 15 s after the previous so
every transition (including the ~9.3 s timeline step-reveal) has settled. -/
def elevenNexts : List (Nat × NavIn) :=
  (List.range 11).map (fun k => ((k + 1) * 15000, NavIn.next))

/-- Timers belonging to the slide 2↔3 swoop choreography. -/
def isSwoopAct : TAct → Bool
  | .swoopComplete _ _ _ => true
  | .swoopEnd => true
  | .revSwoopComplete _ _ _ => true
  | .revSwoopEnd => true
  | _ => false

/-- The swoop choreography's mid-flight completion timer specifically. -/
def isSwoopCompleteAct : TAct → Bool
  | .swoopComplete _ _ _ => true
  | _ => false

/-- Timers belonging to the slide 10→11 swoop choreography. -/
def isS1011Act : TAct → Bool
  | .s1011Complete _ _ _ => true
  | .s1011Expand => true
  | .s1011End => true
  | _ => false

/-- Timers belonging to the timeline step-reveal choreography. -/
def isTimelineAct : TAct → Bool
  | .timelineDraw => true
  | .timelineCircle _ => true
  | .timelineFinal => true
  | _ => false

/-- A concrete animator state with tracked timers from several sequences
pending, used to witness the cancellation theorems. -/
def timerWitnessState : St :=
  { rawInit 400 false with
      s1011T := [0, 1], splitT := [2], revT := [3], expT := some 4,
      timelineT := [5],
      nextId := 7,
      pending := [⟨0, 100, .s1011Expand⟩, ⟨1, 150, .s1011End⟩,
                  ⟨2, 200, .splitExpand⟩, ⟨3, 250, .revSplitExpand⟩,
                  ⟨4, 300, .expansionExpand⟩, ⟨5, 350, .timelineDraw⟩] }

/-! ## Count-up animation (`SlideEngine.animateCountUp`) as pure functions

`animateCountUp` displays, at elapsed time `t` of duration `T`,
`floor(V * easeOutCubic(min(t/T, 1)))` formatted by `toLocaleString`.
Frame times are modelled as nonnegative rationals. -/

/-- The ease-out-cubic curve `1 - (1 - p)^3` from `animateCountUp`. -/
def easeOutCubic (p : ℚ) : ℚ := 1 - (1 - p) ^ 3

/-- `Math.min(elapsed / duration, 1)`. -/
def countUpProgress (T t : ℚ) : ℚ := min (t / T) 1

/-- The integer displayed at elapsed time `t`:
`Math.floor(start + (target - start) * easeProgress)` with `start = 0`. -/
def countUpValue (V : ℕ) (T t : ℚ) : ℤ :=
  ⌊(V : ℚ) * easeOutCubic (countUpProgress T t)⌋

/-- Group a reversed digit list into threes separated by commas. -/
def groupRev : List Char → List Char
  | a :: b :: c :: d :: rest => a :: b :: c :: ',' :: groupRev (d :: rest)
  | l => l

/-- `Number.prototype.toLocaleString` for a nonnegative integer under the
default `en-US`-style grouping: thousands separated by commas. -/
def localeFormat (n : ℕ) : String :=
  String.mk ((groupRev (Nat.repr n).data.reverse).reverse)

/-- The string written to `element.textContent` at elapsed time `t`. -/
def countUpDisplay (V : ℕ) (T t : ℚ) : String :=
  localeFormat (countUpValue V T t).toNat

/-! ## Helper lemmas -/

set_option linter.unnecessarySeqFocus false
set_option linter.unreachableTactic false
set_option linter.unusedTactic false

theorem localeFormat_sample : localeFormat 7777777 = "7,777,777" := by decide

theorem timelineStep_hidden (s : St) :
    (animateTimelineStepByStep s).hidden = s.hidden := rfl

theorem timelineStep_events (s : St) :
    (animateTimelineStepByStep s).events = s.events := rfl

theorem timelineStep_currentSlide (s : St) :
    (animateTimelineStepByStep s).currentSlide = s.currentSlide := rfl

theorem expansion_hidden (s : St) :
    (animateSlide12Expansion s).hidden = s.hidden := by
  cases h : s.expT <;>
    simp [animateSlide12Expansion, cancelSlide12Expansion, schedule,
      removeTimers, h]

theorem expansion_events (s : St) :
    (animateSlide12Expansion s).events = s.events := by
  cases h : s.expT <;>
    simp [animateSlide12Expansion, cancelSlide12Expansion, schedule,
      removeTimers, h]

theorem expansion_currentSlide (s : St) :
    (animateSlide12Expansion s).currentSlide = s.currentSlide := by
  cases h : s.expT <;>
    simp [animateSlide12Expansion, cancelSlide12Expansion, schedule,
      removeTimers, h]

theorem leave10_hidden (s : St) (p i : Nat) :
    (updatePathLeave10 s p i).hidden = s.hidden := by
  unfold updatePathLeave10; split_ifs <;> rfl

theorem leave10_events (s : St) (p i : Nat) :
    (updatePathLeave10 s p i).events = s.events := by
  unfold updatePathLeave10; split_ifs <;> rfl

theorem leave10_currentSlide (s : St) (p i : Nat) :
    (updatePathLeave10 s p i).currentSlide = s.currentSlide := by
  unfold updatePathLeave10; split_ifs <;> rfl

theorem body_hidden (s : St) (i : Nat) (a : Bool) :
    (updatePathBody s i a).hidden = s.hidden := by
  unfold updatePathBody
  split_ifs <;>
    simp [timelineStep_hidden, expansion_hidden, showAllTimelineCircles]

theorem body_events (s : St) (i : Nat) (a : Bool) :
    (updatePathBody s i a).events = s.events := by
  unfold updatePathBody
  split_ifs <;>
    simp [timelineStep_events, expansion_events, showAllTimelineCircles]

theorem body_currentSlide (s : St) (i : Nat) (a : Bool) :
    (updatePathBody s i a).currentSlide = s.currentSlide := by
  unfold updatePathBody
  split_ifs <;>
    simp [timelineStep_currentSlide, expansion_currentSlide,
      showAllTimelineCircles]

theorem reset_hidden (s : St) (i : Nat) :
    (updatePathReset s i).hidden = s.hidden := by
  unfold updatePathReset; split_ifs <;> rfl

theorem reset_events (s : St) (i : Nat) :
    (updatePathReset s i).events = s.events := by
  unfold updatePathReset; split_ifs <;> rfl

theorem reset_currentSlide (s : St) (i : Nat) :
    (updatePathReset s i).currentSlide = s.currentSlide := by
  unfold updatePathReset; split_ifs <;> rfl

theorem updatePath_hidden (s : St) (i : Nat) (a : Bool) :
    (updatePath s i a).hidden = s.hidden := by
  unfold updatePath
  rw [show ({ updatePathReset (updatePathBody (updatePathLeave10
        { s with laCurrent := i } s.laCurrent i) i a) i with
        lastPathUpdate := some (i, a) } : St).hidden =
      (updatePathReset (updatePathBody (updatePathLeave10
        { s with laCurrent := i } s.laCurrent i) i a) i).hidden from rfl,
    reset_hidden, body_hidden, leave10_hidden]

theorem updatePath_events (s : St) (i : Nat) (a : Bool) :
    (updatePath s i a).events = s.events := by
  unfold updatePath
  rw [show ({ updatePathReset (updatePathBody (updatePathLeave10
        { s with laCurrent := i } s.laCurrent i) i a) i with
        lastPathUpdate := some (i, a) } : St).events =
      (updatePathReset (updatePathBody (updatePathLeave10
        { s with laCurrent := i } s.laCurrent i) i a) i).events from rfl,
    reset_events, body_events, leave10_events]

theorem updatePath_currentSlide (s : St) (i : Nat) (a : Bool) :
    (updatePath s i a).currentSlide = s.currentSlide := by
  unfold updatePath
  rw [show ({ updatePathReset (updatePathBody (updatePathLeave10
        { s with laCurrent := i } s.laCurrent i) i a) i with
        lastPathUpdate := some (i, a) } : St).currentSlide =
      (updatePathReset (updatePathBody (updatePathLeave10
        { s with laCurrent := i } s.laCurrent i) i a) i).currentSlide from rfl,
    reset_currentSlide, body_currentSlide, leave10_currentSlide]

theorem updatePath_lastPathUpdate (s : St) (i : Nat) (a : Bool) :
    (updatePath s i a).lastPathUpdate = some (i, a) := rfl

theorem genericGo_idleAt (D i j : Nat) (hj9 : ¬(j = 9)) (hj11 : ¬(j = 11)) :
    genericGo (idleAt D i) i j =
      { idleAt D i with
          currentSlide := j, isTransitioning := true,
          hidden := ((List.replicate 12 true).set i false).set j false,
          laCurrent := j,
          lastPathUpdate := some (j, true),
          pending := [⟨0, 0 + (D + 500), .genSafety 0⟩,
                      ⟨1, 0 + D, .genMain 0 i 0⟩],
          nextId := 2,
          proms := [⟨false, .plain, j⟩] } := by
  by_cases hi9 : i = 9
  · subst hi9
    simp only [genericGo, updatePath, updatePathLeave10, updatePathBody,
      updatePathReset, idleAt, rawInit, hj9, hj11,
      triggerSlideAnimationsM, transitionM, schedule, cancelSlide12Split,
      cancelTimelineAnimation, showAllTimelineCircles, removeTimers]
    simp
  · simp only [genericGo, updatePath, updatePathLeave10, updatePathBody,
      updatePathReset, idleAt, rawInit, hj9, hj11, hi9,
      triggerSlideAnimationsM, transitionM, schedule, cancelSlide12Split,
      cancelTimelineAnimation, showAllTimelineCircles, removeTimers]
    simp

theorem settle_generic (D i j : Nat) :
    settleFuel 2
      { idleAt D i with
          currentSlide := j, isTransitioning := true,
          hidden := ((List.replicate 12 true).set i false).set j false,
          laCurrent := j,
          lastPathUpdate := some (j, true),
          pending := [⟨0, 0 + (D + 500), .genSafety 0⟩,
                      ⟨1, 0 + D, .genMain 0 i 0⟩],
          nextId := 2,
          proms := [⟨false, .plain, j⟩] } =
      { idleAt D i with
          currentSlide := j, isTransitioning := false,
          hidden := (((List.replicate 12 true).set i false).set j false).set
            i true,
          events := [j],
          laCurrent := j,
          lastPathUpdate := some (j, true),
          now := D,
          pending := [],
          nextId := 2,
          proms := [⟨true, .plain, j⟩] } := by
  have hlt : 0 + D < 0 + (D + 500) := by omega
  have hnlt : ¬(0 + (D + 500) < 0 + D) := by omega
  simp only [settleFuel, pickMin, hlt, hnlt, if_pos, if_neg, fireTimer,
    execAct, removeTimers, resolveProm, runCont, afterSlideChangeM,
    List.filter, idleAt, rawInit]
  simp [List.get?, Nat.max_def]

set_option maxHeartbeats 2000000 in
theorem goToSlideM_idleAt_generic (D i j : Nat) (hi : i < 12) (hj : j < 12)
    (hij : ¬(i = j))
    (h12 : ¬(i = 1 ∧ j = 2)) (h21 : ¬(i = 2 ∧ j = 1))
    (h910 : ¬(i = 9 ∧ j = 10)) (h1110 : ¬(i = 11 ∧ j = 10))
    (h1011 : ¬(i = 10 ∧ j = 11)) :
    goToSlideM (idleAt D i) (j : Int) true = genericGo (idleAt D i) i j := by
  interval_cases i <;> interval_cases j <;> first | omega | rfl

theorem mem_filter_notin (P : List Nat) (pending : List Timer) (u : Timer)
    (hu : u ∈ pending.filter (fun t => t.id ∉ P)) : u.id ∉ P := by
  have := List.of_mem_filter hu
  simpa using this

theorem s1011_cancels_own (s : St) (f t idx : Nat)
    (h : ∀ x ∈ s.s1011T, x < s.nextId) :
    ∀ u ∈ (animateSlide10To11Swoop s f t idx).pending, u.id ∉ s.s1011T := by
  intro u hu
  simp only [animateSlide10To11Swoop, cancelSlide10To11Swoop, removeTimers,
    schedule, List.append_assoc, List.mem_append] at hu
  rcases hu with hu | hu
  · exact mem_filter_notin _ _ _ hu
  · intro hmem
    have hx := h u.id hmem
    have hge : s.nextId ≤ u.id := by
      simp at hu
      rcases hu with hu | hu | hu <;> simp [hu] <;> omega
    omega

theorem timeline_cancels_own (s : St)
    (h : ∀ x ∈ s.timelineT, x < s.nextId) :
    ∀ u ∈ (animateTimelineStepByStep s).pending, u.id ∉ s.timelineT := by
  intro u hu
  simp only [animateTimelineStepByStep, hideTimelineCircles,
    cancelTimelineAnimation, removeTimers, schedule, timelineSegments,
    scheduleTimelineSegment, List.foldl, List.append_assoc,
    List.mem_append] at hu
  rcases hu with hu | hu
  · exact mem_filter_notin _ _ _ hu
  · intro hmem
    have hx := h u.id hmem
    have hge : s.nextId ≤ u.id := by
      simp at hu
      rcases hu with hu|hu|hu|hu|hu|hu|hu|hu|hu|hu|hu|hu|hu|hu|hu|hu|hu|hu <;>
        simp [hu] <;> omega
    omega

theorem expansion_cancels_own (s : St)
    (h : ∀ x ∈ s.expT.toList, x < s.nextId) :
    ∀ u ∈ (animateSlide12Expansion s).pending, u.id ∉ s.expT.toList := by
  intro u hu
  cases hexp : s.expT with
  | none => simp
  | some e =>
      have he : e < s.nextId := h e (by simp [hexp])
      simp only [animateSlide12Expansion, cancelSlide12Expansion, hexp,
        removeTimers, schedule, List.mem_append] at hu
      simp only [hexp, Option.toList_some, List.mem_singleton]
      intro hmem
      subst hmem
      rcases hu with hu | hu
      · have := List.of_mem_filter hu
        simp at this
      · simp at hu
        have : s.nextId ≤ u.id := by simp [hu]
        omega

theorem split_cancels_lists (s : St) (f t idx : Nat)
    (h1 : ∀ x ∈ s.s1011T, x < s.nextId)
    (h2 : ∀ x ∈ s.splitT, x < s.nextId) (h3 : ∀ x ∈ s.revT, x < s.nextId)
    (h5 : ∀ x ∈ s.expT.toList, x < s.nextId) :
    ∀ u ∈ (animateSlide11To12Split s f t idx).pending,
      u.id ∉ s.s1011T ∧ u.id ∉ s.splitT ∧ u.id ∉ s.revT ∧
      u.id ∉ s.expT.toList := by
  intro u hu
  cases hexp : s.expT with
  | none =>
      by_cases hcs : s.currentSlide = idx <;>
      · simp only [animateSlide11To12Split, cancelSlide10To11Swoop,
          cancelSlide12Split, cancelSlide12Expansion, splitOnSlideReady,
          transitionM, removeTimers, schedule, hexp, hcs, if_true, if_pos,
          if_false, if_neg, not_false_eq_true, List.mem_append,
          List.mem_filter, List.append_assoc, decide_eq_true_iff,
          Option.toList_none, List.not_mem_nil, and_true] at hu ⊢
        rcases hu with hu | hu
        · exact ⟨hu.1.2, fun hm => hu.2 (Or.inl hm),
            fun hm => hu.2 (Or.inr hm)⟩
        · try simp at hu
          first
            | (subst hu
               refine ⟨fun hm => ?_, fun hm => ?_, fun hm => ?_⟩ <;>
                 (try simp at hm) <;>
                 first
                   | (have hw := h1 _ hm; omega)
                   | (have hw := h2 _ hm; omega)
                   | (have hw := h3 _ hm; omega))
            | (rcases hu with hu | hu | hu <;> subst hu <;>
               refine ⟨fun hm => ?_, fun hm => ?_, fun hm => ?_⟩ <;>
                 (try simp at hm) <;>
                 first
                   | (have hw := h1 _ hm; omega)
                   | (have hw := h2 _ hm; omega)
                   | (have hw := h3 _ hm; omega))
  | some e =>
      have he : e < s.nextId := h5 e (by simp [hexp])
      by_cases hcs : s.currentSlide = idx <;>
      · simp only [animateSlide11To12Split, cancelSlide10To11Swoop,
          cancelSlide12Split, cancelSlide12Expansion, splitOnSlideReady,
          transitionM, removeTimers, schedule, hexp, hcs, if_true, if_pos,
          if_false, if_neg, not_false_eq_true, List.mem_append,
          List.mem_filter, List.append_assoc, decide_eq_true_iff,
          Option.toList_some, List.mem_singleton] at hu ⊢
        rcases hu with hu | hu
        · exact ⟨hu.1.1.2, fun hm => hu.1.2 (Or.inl hm),
            fun hm => hu.1.2 (Or.inr hm), hu.2⟩
        · try simp at hu
          first
            | (subst hu
               refine ⟨fun hm => ?_, fun hm => ?_, fun hm => ?_,
                 fun hm => ?_⟩ <;>
                 (try simp at hm) <;>
                 first
                   | (have hw := h1 _ hm; omega)
                   | (have hw := h2 _ hm; omega)
                   | (have hw := h3 _ hm; omega)
                   | omega)
            | (rcases hu with hu | hu | hu <;> subst hu <;>
               refine ⟨fun hm => ?_, fun hm => ?_, fun hm => ?_,
                 fun hm => ?_⟩ <;>
                 (try simp at hm) <;>
                 first
                   | (have hw := h1 _ hm; omega)
                   | (have hw := h2 _ hm; omega)
                   | (have hw := h3 _ hm; omega)
                   | omega)

theorem rev_cancels_lists (s : St) (f t idx : Nat)
    (h2 : ∀ x ∈ s.splitT, x < s.nextId) (h3 : ∀ x ∈ s.revT, x < s.nextId) :
    ∀ u ∈ (animateSlide12To11Reverse s f t idx).pending,
      u.id ∉ s.splitT ∧ u.id ∉ s.revT := by
  intro u hu
  cases hexp : s.expT with
  | none =>
      simp only [animateSlide12To11Reverse, cancelSlide12Expansion, hexp,
        removeTimers, schedule, List.mem_append, List.mem_filter,
        List.append_assoc, decide_eq_true_iff] at hu
      rcases hu with hu | hu
      · exact ⟨fun hm => hu.2 (by simp [hm]), fun hm => hu.2 (by simp [hm])⟩
      · try simp at hu
        rcases hu with hu | hu | hu | hu <;> subst hu <;>
          refine ⟨fun hm => ?_, fun hm => ?_⟩ <;>
            (try simp at hm) <;>
            first
              | (have hw := h2 _ hm; omega)
              | (have hw := h3 _ hm; omega)
  | some e =>
      simp only [animateSlide12To11Reverse, cancelSlide12Expansion, hexp,
        removeTimers, schedule, List.mem_append, List.mem_filter,
        List.append_assoc, decide_eq_true_iff] at hu
      rcases hu with hu | hu
      · exact ⟨fun hm => hu.2 (by simp [hm]), fun hm => hu.2 (by simp [hm])⟩
      · try simp at hu
        rcases hu with hu | hu | hu | hu <;> subst hu <;>
          refine ⟨fun hm => ?_, fun hm => ?_⟩ <;>
            (try simp at hm) <;>
            first
              | (have hw := h2 _ hm; omega)
              | (have hw := h3 _ hm; omega)

theorem swoop_preserves_pending (s : St) (f t idx : Nat)
    (hna : s.isAnimating = false) :
    ∀ u ∈ s.pending, u ∈ (animateSwoopTransition s f t idx).pending ∧
      u ∈ (animateReverseSwoopTransition s f t idx).pending := by
  intro u hu
  simp [animateSwoopTransition, animateReverseSwoopTransition, hna, schedule]
  exact ⟨Or.inl hu, Or.inl hu⟩

theorem goToSlide_dup_while_transitioning (s : St)
    (h : s.isTransitioning = true) :
    goToSlideM s (s.currentSlide : Int) true = s := by
  simp [goToSlideM, h]

theorem countUpProgress_mono (T t1 t2 : ℚ) (hT : 0 < T) (h : t1 ≤ t2) :
    countUpProgress T t1 ≤ countUpProgress T t2 :=
  min_le_min (by gcongr) le_rfl

theorem easeOutCubic_mono (p q : ℚ) (hq : q ≤ 1) (h : p ≤ q) :
    easeOutCubic p ≤ easeOutCubic q := by
  unfold easeOutCubic
  have h1 : (1 - q) ≤ (1 - p) := by linarith
  have h2 : 0 ≤ (1 - q) := by linarith
  have := pow_le_pow_left₀ h2 h1 3
  linarith

/-! ## Claim theorems -/

set_option maxRecDepth 8000

/-- Claim C1.  The claimed invariant — after every navigation sequence, once
`isTransitioning` is false and no transition timers remain, exactly one slide
has its hidden flag cleared — fails on the code: interrupting a generic fade
(0→1, duration 400 ms) at t = 100 ms with `goToSlide(0)` leaves the first
transition's un-cancelled completion timer alive; at t = 400 ms that stale
timer re-hides slide 0 (its `fromSlide`) after the new transition had just
un-hidden it, and resolves its promise, emitting a stale `slidechange(1)`.
At settle (no pending timers, `isTransitioning` false) every slide's hidden
flag is set: zero slides visible, not one. -/
theorem claim1_interrupted_nav_leaves_every_slide_hidden :
    (runSchedule 500 [(0, .goTo 1 true), (100, .goTo 0 true)]
        initState).isTransitioning = false ∧
    (runSchedule 500 [(0, .goTo 1 true), (100, .goTo 0 true)]
        initState).pending = [] ∧
    (runSchedule 500 [(0, .goTo 1 true), (100, .goTo 0 true)]
        initState).hidden = List.replicate 12 true ∧
    (runSchedule 500 [(0, .goTo 1 true), (100, .goTo 0 true)]
        initState).hidden.count false = 0 ∧
    (runSchedule 500 [(0, .goTo 1 true), (100, .goTo 0 true)]
        initState).events = [0, 1, 0] := by
  decide

/-- Claim C2.  For every generic (non-special) transition with configured
duration `D` from an idle state on slide `i` to slide `j`: the destination's
hidden flag is cleared synchronously at the start; exactly two timers are
pending — the safety timer at `D + 500` (scheduled first) and the primary
completion timer at `D`; the primary fires first, clears the safety timer (so
the second has no effect), hides the source, and resolves the promise, so at
settle — at time `D ≤ D + 500` after the request — the source is hidden, the
destination visible, and exactly one `slidechange(j)` notification was
emitted with the promise resolved exactly once.  (In the source the primary
completion path is itself a timer, not a native CSS hook, so completion never
depends on a native hook firing.  Targets 9 and 11 are excluded only because
`updatePath` starts additional progress-line choreography for them; the
transition mechanism is identical.) -/
theorem claim2_generic_transition_bounded (D i j : Nat) (hi : i < 12)
    (hj : j < 12) (hij : ¬(i = j))
    (h12 : ¬(i = 1 ∧ j = 2)) (h21 : ¬(i = 2 ∧ j = 1))
    (h910 : ¬(i = 9 ∧ j = 10)) (h1110 : ¬(i = 11 ∧ j = 10))
    (h1011 : ¬(i = 10 ∧ j = 11)) (hj9 : ¬(j = 9)) (hj11 : ¬(j = 11)) :
    (goToSlideM (idleAt D i) (j : Int) true).hidden[j]? = some false ∧
    ((goToSlideM (idleAt D i) (j : Int) true).pending.map Timer.time =
      [D + 500, D]) ∧
    (settleFuel 2 (goToSlideM (idleAt D i) (j : Int) true)).pending = [] ∧
    (settleFuel 2 (goToSlideM (idleAt D i) (j : Int) true)).isTransitioning =
      false ∧
    (settleFuel 2 (goToSlideM (idleAt D i) (j : Int) true)).hidden[i]? =
      some true ∧
    (settleFuel 2 (goToSlideM (idleAt D i) (j : Int) true)).hidden[j]? =
      some false ∧
    (settleFuel 2 (goToSlideM (idleAt D i) (j : Int) true)).now = D ∧
    (settleFuel 2 (goToSlideM (idleAt D i) (j : Int) true)).events = [j] ∧
    (settleFuel 2 (goToSlideM (idleAt D i) (j : Int) true)).proms =
      [⟨true, .plain, j⟩] := by
  rw [goToSlideM_idleAt_generic D i j hi hj hij h12 h21 h910 h1110 h1011,
    genericGo_idleAt D i j hj9 hj11, settle_generic D i j]
  refine ⟨?_, by simp, rfl, rfl, ?_, ?_, rfl, rfl, rfl⟩
  · show (((List.replicate 12 true).set i false).set j false)[j]? = some false
    rw [List.getElem?_set_eq_of_lt _ (by simp; omega)]
  · show ((((List.replicate 12 true).set i false).set j false).set
      i true)[i]? = some true
    rw [List.getElem?_set_eq_of_lt _ (by simp; omega)]
  · show ((((List.replicate 12 true).set i false).set j false).set
      i true)[j]? = some false
    rw [List.getElem?_set_ne hij, List.getElem?_set_eq_of_lt _ (by simp; omega)]

/-- Witness for C2 at the page's configuration: duration 400, slides 3 → 4. -/
theorem claim2_generic_transition_bounded_witness :
    (3 < 12) ∧ (4 < 12) ∧ ¬((3 : Nat) = 4) ∧
    ((goToSlideM (idleAt 400 3) (4 : Int) true).hidden[4]? = some false ∧
     ((goToSlideM (idleAt 400 3) (4 : Int) true).pending.map Timer.time =
       [400 + 500, 400]) ∧
     (settleFuel 2 (goToSlideM (idleAt 400 3) (4 : Int) true)).pending = [] ∧
     (settleFuel 2
       (goToSlideM (idleAt 400 3) (4 : Int) true)).isTransitioning = false ∧
     (settleFuel 2 (goToSlideM (idleAt 400 3) (4 : Int) true)).hidden[3]? =
       some true ∧
     (settleFuel 2 (goToSlideM (idleAt 400 3) (4 : Int) true)).hidden[4]? =
       some false ∧
     (settleFuel 2 (goToSlideM (idleAt 400 3) (4 : Int) true)).now = 400 ∧
     (settleFuel 2 (goToSlideM (idleAt 400 3) (4 : Int) true)).events = [4] ∧
     (settleFuel 2 (goToSlideM (idleAt 400 3) (4 : Int) true)).proms =
       [⟨true, .plain, 4⟩]) :=
  ⟨by decide, by decide, by decide,
   claim2_generic_transition_bounded 400 3 4 (by decide) (by decide)
     (by decide) (by decide) (by decide) (by decide) (by decide) (by decide)
     (by decide) (by decide)⟩

/-- Claim C3 counterexample.  Starting a special sequence does NOT cancel
every other special sequence's pending timers: from idle, navigate to the
timeline slide (index 9), then at 15 s take the special 9→10 swoop, then at
15.6 s return to 9 — the generic return runs `updatePath(9, true)`, which
starts the timeline step-reveal but cancels nothing of the 10→11 swoop, so
at t = 15 700 ms both the swoop's two remaining tracked timers and the
timeline's 17 remaining timers are live.  The stale, unguarded swoop cleanup
timer later fires and sets the animator's slide index to 10 while the engine
sits on slide 9. -/
theorem claim3_counterexample_two_choreographies_live :
    ((runToTime 500 15700 [(0, .goTo 9 true), (15000, .goTo 10 true),
        (15600, .goTo 9 true)] initState).pending.countP
      (fun u => isS1011Act u.act) = 2) ∧
    ((runToTime 500 15700 [(0, .goTo 9 true), (15000, .goTo 10 true),
        (15600, .goTo 9 true)] initState).pending.countP
      (fun u => isTimelineAct u.act) = 17) ∧
    (runSchedule 500 [(0, .goTo 9 true), (15000, .goTo 10 true),
        (15600, .goTo 9 true)] initState).currentSlide = 9 ∧
    (runSchedule 500 [(0, .goTo 9 true), (15000, .goTo 10 true),
        (15600, .goTo 9 true)] initState).laCurrent = 10 := by
  decide

/-- Claim C3 as amended.  The slide-11→12 split sequence does cancel the
10→11 swoop's, the split's, the reverse split's, and the slide-12
expansion's pending timers before scheduling any of its own; but the 2↔3
swoop and reverse-swoop sequences cancel no other sequence's pending timers
(every previously pending timer survives their start), so two choreographies
can have live timers simultaneously. -/
theorem claim3_amended_cancellation_discipline (s : St) (f t idx : Nat)
    (h1 : ∀ x ∈ s.s1011T, x < s.nextId)
    (h2 : ∀ x ∈ s.splitT, x < s.nextId)
    (h3 : ∀ x ∈ s.revT, x < s.nextId)
    (h5 : ∀ x ∈ s.expT.toList, x < s.nextId)
    (hna : s.isAnimating = false) :
    (∀ u ∈ (animateSlide11To12Split s f t idx).pending,
        u.id ∉ s.s1011T ∧ u.id ∉ s.splitT ∧ u.id ∉ s.revT ∧
        u.id ∉ s.expT.toList) ∧
    (∀ u ∈ s.pending, u ∈ (animateSwoopTransition s f t idx).pending ∧
        u ∈ (animateReverseSwoopTransition s f t idx).pending) :=
  ⟨split_cancels_lists s f t idx h1 h2 h3 h5,
   swoop_preserves_pending s f t idx hna⟩

/-- Witness for the amended C3 at a state with timers of every sequence. -/
theorem claim3_amended_cancellation_discipline_witness :
    (∀ x ∈ timerWitnessState.s1011T, x < timerWitnessState.nextId) ∧
    timerWitnessState.isAnimating = false ∧
    ((∀ u ∈ (animateSlide11To12Split timerWitnessState 10 11 11).pending,
        u.id ∉ timerWitnessState.s1011T ∧ u.id ∉ timerWitnessState.splitT ∧
        u.id ∉ timerWitnessState.revT ∧
        u.id ∉ timerWitnessState.expT.toList) ∧
     (∀ u ∈ timerWitnessState.pending,
        u ∈ (animateSwoopTransition timerWitnessState 10 11 11).pending ∧
        u ∈ (animateReverseSwoopTransition timerWitnessState 10 11 11).pending)) :=
  ⟨by decide, by decide,
   claim3_amended_cancellation_discipline timerWitnessState 10 11 11
     (by decide) (by decide) (by decide) (by decide) (by decide)⟩

/-- Claim C4 counterexample.  Two generations of the same special sequence
CAN have live timers simultaneously, and a stale timer of a cancelled
generation fires and mutates state: start the 1→2 swoop at t = 1000 (its two
timers are untracked), interrupt with `goTo(1)` at 1050 (whose cancel path
resets `isAnimating`, defeating the swoop's only guard) and `goTo(2)` again
at 1100 — at t = 1110 two `swoopComplete` timers (and six swoop-family
timers in all) are pending.  The stale generation-1 completion timer then fires and
emits a `slidechange(2)` notification of its own (events [0,1,2,2,1]). -/
theorem claim4_counterexample_two_swoop_generations :
    ((runToTime 500 1110 [(0, .goTo 1 true), (1000, .goTo 2 true),
        (1050, .goTo 1 true), (1100, .goTo 2 true)] initState).pending.countP
      (fun u => isSwoopCompleteAct u.act) = 2) ∧
    ((runToTime 500 1110 [(0, .goTo 1 true), (1000, .goTo 2 true),
        (1050, .goTo 1 true), (1100, .goTo 2 true)] initState).pending.countP
      (fun u => isSwoopAct u.act) = 6) ∧
    (runSchedule 500 [(0, .goTo 1 true), (1000, .goTo 2 true),
        (1050, .goTo 1 true), (1100, .goTo 2 true)] initState).events =
      [0, 1, 2, 2, 1] := by
  decide

/-- Claim C4 as amended.  Every special sequence with a tracked timer list —
the timeline step-reveal, the 10→11 swoop, the slide-12 expansion, the
split, and the reverse split — cancels all previously scheduled timers of
that same sequence before any new timer is scheduled (no pending timer after
the restart carries a handle from the pre-state's own list); the 2↔3
swoop/reverse-swoop timers are untracked and only guarded by `isAnimating`,
which other sequences' cancel operations reset, so stale swoop timers can
fire (see the counterexample). -/
theorem claim4_amended_tracked_sequences_cancel_own (s : St) (f t idx : Nat)
    (h1 : ∀ x ∈ s.s1011T, x < s.nextId)
    (h2 : ∀ x ∈ s.splitT, x < s.nextId)
    (h3 : ∀ x ∈ s.revT, x < s.nextId)
    (h4 : ∀ x ∈ s.timelineT, x < s.nextId)
    (h5 : ∀ x ∈ s.expT.toList, x < s.nextId) :
    (∀ u ∈ (animateSlide10To11Swoop s f t idx).pending, u.id ∉ s.s1011T) ∧
    (∀ u ∈ (animateTimelineStepByStep s).pending, u.id ∉ s.timelineT) ∧
    (∀ u ∈ (animateSlide12Expansion s).pending, u.id ∉ s.expT.toList) ∧
    (∀ u ∈ (animateSlide11To12Split s f t idx).pending,
        u.id ∉ s.splitT ∧ u.id ∉ s.revT) ∧
    (∀ u ∈ (animateSlide12To11Reverse s f t idx).pending,
        u.id ∉ s.splitT ∧ u.id ∉ s.revT) :=
  ⟨s1011_cancels_own s f t idx h1,
   timeline_cancels_own s h4,
   expansion_cancels_own s h5,
   fun u hu => ⟨(split_cancels_lists s f t idx h1 h2 h3 h5 u hu).2.1,
     (split_cancels_lists s f t idx h1 h2 h3 h5 u hu).2.2.1⟩,
   rev_cancels_lists s f t idx h2 h3⟩

/-- Witness for the amended C4 at a state with timers of every sequence. -/
theorem claim4_amended_tracked_sequences_cancel_own_witness :
    (∀ x ∈ timerWitnessState.timelineT, x < timerWitnessState.nextId) ∧
    (∀ x ∈ timerWitnessState.expT.toList, x < timerWitnessState.nextId) ∧
    ((∀ u ∈ (animateSlide10To11Swoop timerWitnessState 9 10 10).pending,
        u.id ∉ timerWitnessState.s1011T) ∧
     (∀ u ∈ (animateTimelineStepByStep timerWitnessState).pending,
        u.id ∉ timerWitnessState.timelineT) ∧
     (∀ u ∈ (animateSlide12Expansion timerWitnessState).pending,
        u.id ∉ timerWitnessState.expT.toList) ∧
     (∀ u ∈ (animateSlide11To12Split timerWitnessState 9 10 10).pending,
        u.id ∉ timerWitnessState.splitT ∧ u.id ∉ timerWitnessState.revT) ∧
     (∀ u ∈ (animateSlide12To11Reverse timerWitnessState 9 10 10).pending,
        u.id ∉ timerWitnessState.splitT ∧ u.id ∉ timerWitnessState.revT)) :=
  ⟨by decide, by decide,
   claim4_amended_tracked_sequences_cancel_own timerWitnessState 9 10 10
     (by decide) (by decide) (by decide) (by decide) (by decide)⟩

/-- Claim C5 counterexample.  A duplicate `goTo(11)` issued 10 ms after a
first `goTo(11)` while the engine is transitioning 10 → 11 (the split
special case, which defers the `currentSlide` update) is NOT ignored: the
debounce at the top of `goToSlide` compares the argument against
`currentSlide`, still 10 in this branch, so the second call cancels and
restarts the sequence, both generations' `onSlideReady` transitions run, and
two `slidechange(11)` notifications are emitted instead of one. -/
theorem claim5_counterexample_duplicate_split_two_notifications :
    (runSchedule 500 [(0, .goTo 10 true), (5000, .goTo 11 true),
        (5010, .goTo 11 true)] initState).events = [0, 10, 11, 11] ∧
    (runSchedule 500 [(0, .goTo 10 true), (5000, .goTo 11 true),
        (5010, .goTo 11 true)] initState).events.count 11 = 2 := by
  decide

/-- Claim C5 as amended.  A duplicate `goTo(k)` while already transitioning
is ignored exactly when `currentSlide` already equals `k`, which holds for
every transition that updates the index eagerly (the generic transition and
the 1↔2, 9→10, 11→10 specials): the call returns with the state unchanged,
and the concrete duplicate runs during a generic transition toward 1 and
during the 1→2 swoop each produce exactly one completion notification.  The
10→11 split defers the index update, so its duplicate is not ignored (see
the counterexample). -/
theorem claim5_amended_debounce_requires_eager_index :
    (∀ s : St, s.isTransitioning = true →
        goToSlideM s (s.currentSlide : Int) true = s) ∧
    ((runSchedule 500 [(0, .goTo 1 true), (100, .goTo 1 true)]
        initState).events = [0, 1] ∧
     (runSchedule 500 [(0, .goTo 1 true), (100, .goTo 1 true)]
        initState).events.count 1 = 1) ∧
    ((runSchedule 500 [(0, .goTo 1 true), (1000, .goTo 2 true),
        (1050, .goTo 2 true)] initState).events.count 2 = 1) :=
  ⟨goToSlide_dup_while_transitioning, by decide, by decide⟩

/-- Witness for the amended C5: the state 100 ms into the 0→1 fade is
transitioning with `currentSlide = 1`, and the duplicate call is a no-op. -/
theorem claim5_amended_debounce_requires_eager_index_witness :
    (runToTime 500 100 [(0, .goTo 1 true)] initState).isTransitioning =
      true ∧
    goToSlideM (runToTime 500 100 [(0, .goTo 1 true)] initState)
        ((runToTime 500 100 [(0, .goTo 1 true)] initState).currentSlide :
          Int) true =
      runToTime 500 100 [(0, .goTo 1 true)] initState :=
  ⟨by decide,
   claim5_amended_debounce_requires_eager_index.1
     (runToTime 500 100 [(0, .goTo 1 true)] initState) (by decide)⟩

/-- Claim C6 counterexample.  With 12 slides, starting at index 0 and
calling `next()` 11 times sequentially (each after the previous settles),
the final index is 11 — the last slide — and not 10 as the claim states. -/
theorem claim6_counterexample_eleven_nexts_reach_index_11 :
    (runSchedule 500 elevenNexts initState).currentSlide = 11 ∧
    ¬((runSchedule 500 elevenNexts initState).currentSlide = 10) := by
  decide

/-- Claim C6 as amended.  After 11 sequential settled `next()` calls the
index is 11 (the last slide, within bounds, no wraparound with the
configured `loop = false`); a 12th `next()` leaves the index unchanged at
11; with `loop` explicitly enabled the 12th `next()` wraps to 0. -/
theorem claim6_amended_next_clamps_at_last_slide :
    (runSchedule 500 elevenNexts initState).currentSlide = 11 ∧
    (runSchedule 500 (elevenNexts ++ [(180000, .next)])
        initState).currentSlide = 11 ∧
    (runSchedule 500 (elevenNexts ++ [(180000, .next)])
        (initStateD 400 true)).currentSlide = 0 := by
  decide

/-- Claim C7.  Calling `goTo(currentIndex)` (an animated call) while the
engine is idle is a no-op: the state — slide visibility flags, timer queue,
event list and all — is returned unchanged by the early `index ===
currentSlide` return. -/
theorem claim7_goto_current_idle_noop (s : St)
    (h1 : s.isTransitioning = false)
    (h2 : s.currentSlide < s.hidden.length) :
    goToSlideM s (s.currentSlide : Int) true = s := by
  have hge : ¬((s.currentSlide : Int) < 0) := by omega
  have hlt : ¬((s.currentSlide : Int) ≥ (s.hidden.length : Int)) := by omega
  simp [goToSlideM, h1, hge, hlt]

/-- Witness for C7 at the initial state (idle on slide 0). -/
theorem claim7_goto_current_idle_noop_witness :
    initState.isTransitioning = false ∧
    initState.currentSlide < initState.hidden.length ∧
    goToSlideM initState (initState.currentSlide : Int) true = initState :=
  ⟨by decide, by decide,
   claim7_goto_current_idle_noop initState (by decide) (by decide)⟩

/-- Claim C8.  For a count-up with nonnegative integer target `V` and
positive duration `T`: the displayed value is non-decreasing in elapsed
time, equals 0 at `t = 0`, equals exactly `V` at and after `t = T`, and the
displayed string is the locale-grouped rendering of
`floor(V * (1 - (1 - t/T)^3))` at every frame. -/
theorem claim8_countup_monotone_zero_exact (V : ℕ) (T : ℚ) (hT : 0 < T) :
    (∀ t1 t2 : ℚ, 0 ≤ t1 → t1 ≤ t2 →
      countUpValue V T t1 ≤ countUpValue V T t2) ∧
    countUpValue V T 0 = 0 ∧
    (∀ t : ℚ, T ≤ t → countUpValue V T t = (V : ℤ)) ∧
    (∀ t : ℚ, countUpDisplay V T t =
      localeFormat (⌊(V : ℚ) * (1 - (1 - countUpProgress T t) ^ 3)⌋).toNat) := by
  refine ⟨?_, ?_, ?_, fun _ => rfl⟩
  · intro t1 t2 h0 h12
    unfold countUpValue
    apply Int.floor_le_floor
    apply mul_le_mul_of_nonneg_left _ (by positivity)
    exact easeOutCubic_mono _ _ (min_le_right _ _)
      (countUpProgress_mono T t1 t2 hT h12)
  · simp [countUpValue, countUpProgress, easeOutCubic, zero_div,
      min_eq_left, zero_le_one]
  · intro t ht
    have h1 : countUpProgress T t = 1 := by
      unfold countUpProgress
      rw [min_eq_right]
      rw [le_div_iff₀ hT]
      linarith
    simp [countUpValue, h1, easeOutCubic]

/-- Witness for C8 at the page's count-up duration (2000 ms) and the
slide-2 target value 7 777 777. -/
theorem claim8_countup_monotone_zero_exact_witness :
    ((0 : ℚ) < 2000) ∧
    ((∀ t1 t2 : ℚ, 0 ≤ t1 → t1 ≤ t2 →
       countUpValue 7777777 2000 t1 ≤ countUpValue 7777777 2000 t2) ∧
     countUpValue 7777777 2000 0 = 0 ∧
     (∀ t : ℚ, (2000 : ℚ) ≤ t →
       countUpValue 7777777 2000 t = (7777777 : ℤ)) ∧
     (∀ t : ℚ, countUpDisplay 7777777 2000 t =
       localeFormat (⌊(7777777 : ℚ) *
         (1 - (1 - countUpProgress 2000 t) ^ 3)⌋).toNat)) :=
  ⟨by norm_num, claim8_countup_monotone_zero_exact 7777777 2000 (by norm_num)⟩

/-- Claim C9.  The source mixes index-update disciplines: the 1→2 swoop
branch assigns `currentSlide` eagerly (it is already 2 while the transition
is still in flight with pending timers), whereas the 10→11 split branch
leaves `currentSlide` at 10 while transitioning and assigns it only inside
the completion callback, after which it is 11. -/
theorem claim9_eager_and_deferred_index_updates :
    (let s := goToSlideM (runSchedule 500 [(0, .goTo 1 true)] initState)
        (2 : Int) true
     s.isTransitioning = true ∧ s.currentSlide = 2 ∧ s.pending ≠ []) ∧
    (let s1 := goToSlideM (runSchedule 500 [(0, .goTo 10 true)] initState)
        (11 : Int) true
     s1.isTransitioning = true ∧ s1.currentSlide = 10 ∧
     (settleFuel 500 s1).currentSlide = 11) := by
  decide

/-- Claim C10.  The idle no-op guarantee is animation-only: for the current
index `i`, `goToSlide(i, false)` does not early-return — it clears slide
`i`'s hidden flag, requests a progress-path update without animation
(`updatePath(i, false)`), dispatches a `slidechange` notification carrying
`i`, and leaves `currentSlide` at `i`. -/
theorem claim10_non_animated_same_index_not_noop (s : St)
    (h1 : s.isTransitioning = false)
    (h2 : s.currentSlide < s.hidden.length) :
    (goToSlideM s (s.currentSlide : Int) false).hidden[s.currentSlide]? =
      some false ∧
    (goToSlideM s (s.currentSlide : Int) false).events =
      s.events ++ [s.currentSlide] ∧
    (goToSlideM s (s.currentSlide : Int) false).lastPathUpdate =
      some (s.currentSlide, false) ∧
    (goToSlideM s (s.currentSlide : Int) false).currentSlide =
      s.currentSlide := by
  have hpos : 0 < s.hidden.length := by omega
  by_cases h0 : s.currentSlide = 0
  · have h2' : ¬((0 : Int) ≥ (s.hidden.length : Int)) := by omega
    simp only [h0]
    simp only [goToSlideM, h0, h1, h2', afterSlideChangeM, Nat.cast_zero,
      Bool.false_eq_true, false_and, and_false, if_false, lt_self_iff_false,
      not_false_eq_true, ge_iff_le, Int.toNat_zero, and_true, if_true,
      eq_self_iff_true, and_self, ite_true, ite_false, Bool.not_false,
      if_pos, true_and, not_true_eq_false]
    simp [updatePath_hidden, updatePath_events, updatePath_lastPathUpdate,
      updatePath_currentSlide, List.getElem?_set_eq_of_lt _ hpos]
  · have hge : ¬((s.currentSlide : Int) < 0) := by omega
    have hlt : ¬((s.currentSlide : Int) ≥ (s.hidden.length : Int)) := by
      omega
    have htonat : ((s.currentSlide : Int)).toNat = s.currentSlide := by omega
    simp only [goToSlideM, h1, hge, hlt, htonat, h0, afterSlideChangeM,
      Bool.false_eq_true, false_and, if_false, Bool.not_false, and_true,
      and_false, not_false_eq_true, and_self, if_true, if_pos, ite_false,
      ite_true, eq_self_iff_true, not_true, Bool.true_and, Bool.and_true,
      Bool.false_and, ite_self, ne_eq, not_true_eq_false]
    simp [updatePath_hidden, updatePath_events, updatePath_lastPathUpdate,
      updatePath_currentSlide, List.getElem?_set_eq_of_lt _ h2]

/-- Witness for C10 at the initial state: the redundant non-animated call on
slide 0 re-clears the flag, re-updates the path, and emits a second
`slidechange(0)`. -/
theorem claim10_non_animated_same_index_not_noop_witness :
    initState.isTransitioning = false ∧
    initState.currentSlide < initState.hidden.length ∧
    ((goToSlideM initState (initState.currentSlide : Int)
        false).hidden[initState.currentSlide]? = some false ∧
     (goToSlideM initState (initState.currentSlide : Int) false).events =
       initState.events ++ [initState.currentSlide] ∧
     (goToSlideM initState (initState.currentSlide : Int)
        false).lastPathUpdate = some (initState.currentSlide, false) ∧
     (goToSlideM initState (initState.currentSlide : Int)
        false).currentSlide = initState.currentSlide) :=
  ⟨by decide, by decide,
   claim10_non_animated_same_index_not_noop initState (by decide)
     (by decide)⟩

end UsTraffic
